import Mathlib

/-!
Verification development for the `contrail` shell-prompt renderer.

The repository contains two iterations of the segment-formatting logic:

* the newer one under `src/modules/` (`modules/mod.rs` with
  `format_for_module`, `read_options`, `read_style`, the `try_*_from_*`
  parsers, and the per-module providers `format_exit_code`,
  `format_prompt`, `format_cwd`, `format_generic`, `format_git`), and
* the older one in `src/modules.rs` (`format_module`,
  `string_to_colour`, `string_to_style`, `format_module_directory`).

`src/main.rs` is the adjacent external-command executor utility.

This file gives a shallow embedding of both iterations.  Rust machine
integers become `Nat` (all constructed values are bounded by explicit
range checks, mirroring the source), fallible code returns
`Except`/`Option`, and a `panic!`/`unwrap` possibility is modelled by an
outer `Option` (`none` = the source panics).  Strings are modelled over
their character lists; `str::to_lowercase` is modelled by ASCII
lowercasing (all inputs relevant here are ASCII).
-/

deriving instance DecidableEq for Except

namespace Contrail

/-- `ansi_term::Color` (aka `Colour`): eight named palette entries, an
8-bit indexed color, or a 24-bit RGB triple.  The `u8` payloads are
modelled as `Nat`; every constructor application in this file is guarded
by the same `0..=255` range checks the source performs. -/
inductive Color where
  | Black
  | Red
  | Green
  | Yellow
  | Blue
  | Purple
  | Cyan
  | White
  | Fixed (n : Nat)
  | RGB (r g b : Nat)
deriving DecidableEq, Repr

/-- `ansi_term::Style`: a foreground, a background, and eight boolean
text attributes. -/
structure Style where
  foreground : Option Color := none
  background : Option Color := none
  is_bold : Bool := false
  is_dimmed : Bool := false
  is_italic : Bool := false
  is_underline : Bool := false
  is_blink : Bool := false
  is_reverse : Bool := false
  is_hidden : Bool := false
  is_strikethrough : Bool := false
deriving DecidableEq, Repr

instance : Inhabited Style := ⟨{}⟩

/-- `Style::new()` / `Style::default()`. -/
def Style.new : Style := {}

def Style.bold (s : Style) : Style := { s with is_bold := true }

def Style.dimmed (s : Style) : Style := { s with is_dimmed := true }

def Style.italic (s : Style) : Style := { s with is_italic := true }

def Style.underline (s : Style) : Style := { s with is_underline := true }

def Style.blink (s : Style) : Style := { s with is_blink := true }

def Style.reverse (s : Style) : Style := { s with is_reverse := true }

def Style.hidden (s : Style) : Style := { s with is_hidden := true }

def Style.strikethrough (s : Style) : Style := { s with is_strikethrough := true }

/-- `Style::fg`. -/
def Style.fg (s : Style) (c : Color) : Style := { s with foreground := some c }

/-- `Style::on`. -/
def Style.on (s : Style) (c : Color) : Style := { s with background := some c }

/-- The ANSI foreground code for a color (`ansi_term`'s
`write_foreground_code`). -/
def fg_code : Color → String
  | .Black => "30"
  | .Red => "31"
  | .Green => "32"
  | .Yellow => "33"
  | .Blue => "34"
  | .Purple => "35"
  | .Cyan => "36"
  | .White => "37"
  | .Fixed n => "38;5;" ++ toString n
  | .RGB r g b => "38;2;" ++ toString r ++ ";" ++ toString g ++ ";" ++ toString b

/-- The ANSI background code for a color (`ansi_term`'s
`write_background_code`). -/
def bg_code : Color → String
  | .Black => "40"
  | .Red => "41"
  | .Green => "42"
  | .Yellow => "43"
  | .Blue => "44"
  | .Purple => "45"
  | .Cyan => "46"
  | .White => "47"
  | .Fixed n => "48;5;" ++ toString n
  | .RGB r g b => "48;2;" ++ toString r ++ ";" ++ toString g ++ ";" ++ toString b

/-- The semicolon-separated code list `ansi_term::Style::write_prefix`
emits: attribute codes in source order, then the background, then the
foreground. -/
def Style.codes (s : Style) : List String :=
  (if s.is_bold then ["1"] else []) ++
  (if s.is_dimmed then ["2"] else []) ++
  (if s.is_italic then ["3"] else []) ++
  (if s.is_underline then ["4"] else []) ++
  (if s.is_blink then ["5"] else []) ++
  (if s.is_reverse then ["7"] else []) ++
  (if s.is_hidden then ["8"] else []) ++
  (if s.is_strikethrough then ["9"] else []) ++
  (match s.background with | some c => [bg_code c] | none => []) ++
  (match s.foreground with | some c => [fg_code c] | none => [])

/-- `Style::prefix()` rendered to a string: empty for a plain style,
otherwise `ESC [ codes m`. -/
def style_pre (s : Style) : String :=
  if s = Style.new then "" else "\x1B[" ++ String.intercalate ";" s.codes ++ "m"

/-- `Style::suffix()` rendered to a string: empty for a plain style,
otherwise the reset sequence. -/
def style_suf (s : Style) : String :=
  if s = Style.new then "" else "\x1B[0m"

/-- `Colour::prefix()`: the prefix of a style whose foreground is the
color. -/
def colour_pre (c : Color) : String :=
  style_pre (Style.fg Style.new c)

/-- `Colour::suffix()`. -/
def colour_suf (c : Color) : String :=
  style_suf (Style.fg Style.new c)

/-- ASCII lowercasing of one character; models `str::to_lowercase` on
the ASCII inputs this program deals with. -/
def lower_char (c : Char) : Char :=
  if 65 ≤ c.toNat ∧ c.toNat ≤ 90 then Char.ofNat (c.toNat + 32) else c

/-- ASCII lowercasing of a string. -/
def ascii_lower (s : String) : String :=
  ⟨s.data.map lower_char⟩

/-- The numeric value of a digit list, most significant first. -/
def digits_val (l : List Char) : Nat :=
  l.foldl (fun acc c => acc * 10 + (c.toNat - '0'.toNat)) 0

/-- An ASCII decimal digit. -/
def is_digit (c : Char) : Bool :=
  48 ≤ c.toNat && c.toNat ≤ 57

/-- `str::parse::<u8>()`: an optional leading `+`, then at least one
digit, with the value in `0..=255`; everything else (including a
leading `-`) is a parse error. -/
def parse_u8 (s : String) : Option Nat :=
  let body := match s.data with
    | c :: rest => if c = '+' then rest else c :: rest
    | [] => []
  if body = [] then none
  else if body.all is_digit then
    if digits_val body ≤ 255 then some (digits_val body) else none
  else none

/-- Does `pat` occur at the head of `l`? -/
def list_starts (pat l : List Char) : Bool :=
  match pat, l with
  | [], _ => true
  | _ :: _, [] => false
  | a :: as_, b :: bs => a == b && list_starts as_ bs

/-- Does `pat` occur anywhere in `l`? -/
def list_has_sub (pat : List Char) : List Char → Bool
  | [] => list_starts pat []
  | c :: rest => list_starts pat (c :: rest) || list_has_sub pat rest

/-- Substring occurrence test for strings. -/
def has_sub (s pat : String) : Bool :=
  list_has_sub pat.data s.data

/-- `str::split(',')` on a character list (Rust `split` semantics:
empty pieces are kept, the empty input gives one empty piece). -/
def split_char (sep : Char) : List Char → List (List Char)
  | [] => [[]]
  | c :: rest =>
    let r := split_char sep rest
    if c == sep then [] :: r
    else
      match r with
      | h :: t => (c :: h) :: t
      | [] => [[c]]

/-- The error kinds of `utils::ErrorKind` used by `src/modules/mod.rs`
(`InvalidTypeInConfig`, `ConfigParseFailure`, `NoSuchMatchInConfig`).
`IntParseFailure` models the `From<ParseIntError>` conversion invoked by
the `?` operator on `str::parse` (the conversion impl itself is not
under `src/`; the spec's error taxonomy classes it with the other
malformed-value errors). -/
inductive ErrorKind where
  | InvalidTypeInConfig
  | ConfigParseFailure
  | NoSuchMatchInConfig
  | IntParseFailure
deriving DecidableEq, Repr

/-- `utils::Error`.  The human-readable message the source attaches via
`format!` is debug text only and is not modelled. -/
structure Error where
  kind : ErrorKind
deriving DecidableEq, Repr

/-- `try_color_from_str` (`src/modules/mod.rs`): exact case-insensitive
match against the eight `ansi_term` named colors. -/
def try_color_from_str (s : String) : Except Error Color :=
  match ascii_lower s with
  | "black" => .ok .Black
  | "red" => .ok .Red
  | "green" => .ok .Green
  | "yellow" => .ok .Yellow
  | "blue" => .ok .Blue
  | "purple" => .ok .Purple
  | "cyan" => .ok .Cyan
  | "white" => .ok .White
  | _ => .error ⟨.NoSuchMatchInConfig⟩

/-- `try_fixed_from_str` (`src/modules/mod.rs`): `s.parse::<u8>()`
into an indexed color. -/
def try_fixed_from_str (s : String) : Except Error Color :=
  match parse_u8 s with
  | some n => .ok (.Fixed n)
  | none => .error ⟨.IntParseFailure⟩

/-- Parse each cleaned component with `parse::<u8>()?`, stopping at the
first failure (the loop in `try_rgb_from_str`). -/
def parse_u8_list : List String → Except Error (List Nat)
  | [] => .ok []
  | s :: rest =>
    match parse_u8 s with
    | none => .error ⟨.IntParseFailure⟩
    | some n =>
      match parse_u8_list rest with
      | .ok ns => .ok (n :: ns)
      | .error e => .error e

/-- `try_rgb_from_str` (`src/modules/mod.rs`): split on commas, strip
`(`/`)`/space characters from each piece, parse each piece as a `u8`,
and require exactly three components. -/
def try_rgb_from_str (s : String) : Except Error Color :=
  let cleaned : List String :=
    (split_char ',' s.data).map
      (fun piece => ⟨piece.filter (fun j => !(j == '(' || j == ')' || j == ' '))⟩)
  match parse_u8_list cleaned with
  | .error e => .error e
  | .ok ints =>
    match ints with
    | [r, g, b] => .ok (.RGB r g b)
    | _ => .error ⟨.ConfigParseFailure⟩

/-- `try_text_prop_from_str` (`src/modules/mod.rs`): a single string to
a one-attribute style; `None` yields the plain style. -/
def try_text_prop_from_str (s : Option String) : Except Error Style :=
  match s with
  | some s =>
    match ascii_lower s with
    | "bold" => .ok Style.new.bold
    | "blink" => .ok Style.new.blink
    | "dimmed" => .ok Style.new.dimmed
    | "hidden" => .ok Style.new.hidden
    | "italic" => .ok Style.new.italic
    | "reverse" => .ok Style.new.reverse
    | "strikethrough" => .ok Style.new.strikethrough
    | "underline" => .ok Style.new.underline
    | _ => .error ⟨.NoSuchMatchInConfig⟩
  | none => .ok Style.new

/-- One step of the fold in `try_text_props_from_vec`: apply a single
attribute string to the accumulated style. -/
def apply_text_prop (style : Style) (s : String) : Except Error Style :=
  match ascii_lower s with
  | "bold" => .ok style.bold
  | "blink" => .ok style.blink
  | "dimmed" => .ok style.dimmed
  | "hidden" => .ok style.hidden
  | "italic" => .ok style.italic
  | "reverse" => .ok style.reverse
  | "strikethrough" => .ok style.strikethrough
  | "underline" => .ok style.underline
  | _ => .error ⟨.NoSuchMatchInConfig⟩

/-- The loop of `try_text_props_from_vec`, threading the style through
the list and returning the first error. -/
def text_props_fold (style : Style) : List String → Except Error Style
  | [] => .ok style
  | s :: rest =>
    match apply_text_prop style s with
    | .ok st => text_props_fold st rest
    | .error e => .error e

/-- `try_text_props_from_vec` (`src/modules/mod.rs`): fold a list of
attribute strings into one `Style`, starting from `Style::new()`. -/
def try_text_props_from_vec (props : List String) : Except Error Style :=
  text_props_fold Style.new props

/-- `config::Value`: the value kinds of the merged configuration that
this program distinguishes. -/
inductive Value where
  | VString (s : String)
  | VInteger (i : Int)
  | VBoolean (b : Bool)
  | VArray (l : List Value)

/-- The merged configuration: a flat association list from dotted keys
to values (`config::Config`, as consumed through `Config::get`). -/
def Config := List (String × Value)

/-- `Config::get`. -/
def cget (c : Config) (key : String) : Option Value :=
  match c with
  | [] => none
  | (k, v) :: rest => if k = key then some v else cget rest key

/-- A fallible computation that can also panic: `none` models a
`panic!`/`unwrap` abort, `some (.error e)` a propagated `Err`. -/
abbrev PRes (α : Type) := Option (Except Error α)

/-- Successful result. -/
def pok {α : Type} (a : α) : PRes α := some (.ok a)

/-- Propagated error (the `?` operator). -/
def perr {α : Type} (e : Error) : PRes α := some (.error e)

/-- Sequencing of fallible, possibly-panicking computations. -/
def pbind {α β : Type} (x : PRes α) (f : α → PRes β) : PRes β :=
  match x with
  | none => none
  | some (.error e) => some (.error e)
  | some (.ok a) => f a

/-- Lift a plain `Result` into `PRes`. -/
def plift {α : Type} : Except Error α → PRes α
  | .ok a => pok a
  | .error e => perr e

/-- `unwrap_value_if_string` (`src/modules/mod.rs`): values must be
strongly typed, so a non-`String` value is an error rather than a
coercion. -/
def unwrap_value_if_string (v : Value) : Except Error String :=
  match v with
  | .VString s => .ok s
  | _ => .error ⟨.InvalidTypeInConfig⟩

/-- `try_color_from_config` (`src/modules/mod.rs`): an integer must be
a valid `u8`; a string is tried as a named color, then as a fixed
index, then as an RGB triple; any other value kind is a type error;
an absent key is `Ok(None)`. -/
def try_color_from_config (key : String) (c : Config) : PRes (Option Color) :=
  match cget c key with
  | some (.VInteger i) =>
    if i < 0 ∨ i > 255 then perr ⟨.InvalidTypeInConfig⟩
    else pok (some (.Fixed i.toNat))
  | some (.VString s) =>
    match try_color_from_str s with
    | .ok color => pok (some color)
    | .error _ =>
      match try_fixed_from_str s with
      | .ok color => pok (some color)
      | .error _ =>
        match try_rgb_from_str s with
        | .ok color => pok (some color)
        | .error _ => perr ⟨.ConfigParseFailure⟩
  | some _ => perr ⟨.InvalidTypeInConfig⟩
  | none => pok none

/-- `config::Value::into_str` as used with `.unwrap()` inside
`try_text_props_from_config`: scalars coerce to strings, an array does
not (and the source panics there, hence `none`). -/
def value_into_str : Value → Option String
  | .VString s => some s
  | .VInteger i => some (toString i)
  | .VBoolean b => some (if b then "true" else "false")
  | .VArray _ => none

/-- Coerce every element of a config array to a string, propagating the
panic of `into_str().unwrap()`. -/
def values_into_str : List Value → Option (List String)
  | [] => some []
  | v :: rest =>
    match value_into_str v with
    | none => none
    | some s =>
      match values_into_str rest with
      | some ss => some (s :: ss)
      | none => none

/-- `try_text_props_from_config` (`src/modules/mod.rs`): a single
string or an array of strings; any other kind is a type error; an
absent key is `Ok(None)`. -/
def try_text_props_from_config (key : String) (c : Config) : PRes (Option Style) :=
  match cget c key with
  | some (.VString s) =>
    pbind (plift (try_text_prop_from_str (some s))) fun st => pok (some st)
  | some (.VArray arr) =>
    match values_into_str arr with
    | none => none
    | some strs =>
      pbind (plift (try_text_props_from_vec strs)) fun st => pok (some st)
  | some _ => perr ⟨.InvalidTypeInConfig⟩
  | none => pok none

/-- `ModuleStyle` (`src/modules/mod.rs`): optional background,
foreground, and text-property set. -/
structure ModuleStyle where
  background : Option Color := none
  foreground : Option Color := none
  text_properties : Option Style := none
deriving DecidableEq, Repr

instance : Inhabited ModuleStyle := ⟨{}⟩

/-- `ModuleOptions` (`src/modules/mod.rs`). -/
structure ModuleOptions where
  output : Option String := none
  padding_left : String := " "
  padding_right : String := " "
  separator : String := ""
  style : ModuleStyle := {}
deriving DecidableEq, Repr

instance : Inhabited ModuleOptions := ⟨{}⟩

/-- `read_style` (`src/modules/mod.rs`): resolve
`<key>.{background,foreground,text_properties}`; each absent field is
`None`. -/
def read_style (key : String) (c : Config) : PRes ModuleStyle :=
  pbind (try_color_from_config (key ++ ".background") c) fun bg =>
  pbind (try_color_from_config (key ++ ".foreground") c) fun fg =>
  pbind (try_text_props_from_config (key ++ ".text_properties") c) fun text =>
  pok { background := bg, foreground := fg, text_properties := text }

/-- A string-valued field of `read_options` with its hardcoded
default. -/
def read_string_field (c : Config) (key : String) (dflt : String) : PRes String :=
  match cget c key with
  | some v => plift (unwrap_value_if_string v)
  | none => pok dflt

/-- `read_options` (`src/modules/mod.rs`): paddings default to a
single space, the separator to the empty string, the output override to
absent. -/
def read_options (key : String) (c : Config) : PRes ModuleOptions :=
  pbind (read_string_field c ("modules." ++ key ++ ".padding_left") " ") fun padding_left =>
  pbind (read_string_field c ("modules." ++ key ++ ".padding_right") " ") fun padding_right =>
  pbind (read_string_field c ("modules." ++ key ++ ".separator") "") fun separator =>
  pbind (match cget c ("modules." ++ key ++ ".output") with
         | some v => pbind (plift (unwrap_value_if_string v)) fun s => pok (some s)
         | none => pok none) fun output =>
  pbind (read_style ("modules." ++ key ++ ".style") c) fun style =>
  pok { output := output, padding_left := padding_left, padding_right := padding_right,
        separator := separator, style := style }

/-- `style_from_modulestyle` (`src/modules/mod.rs`): start from the
text properties (or the default style), then overlay background and
foreground when present. -/
def style_from_modulestyle (s : ModuleStyle) : Style :=
  let style := s.text_properties.getD Style.new
  let style := match s.background with
    | some bg => style.on bg
    | none => style
  match s.foreground with
  | some fg => style.fg fg
  | none => style

/-- `clap::Shell`: the shell identifiers `contrail` can be asked to
format for. -/
inductive Shell where
  | Bash
  | Zsh
  | Fish
  | PowerShell
  | Elvish
deriving DecidableEq, Repr

/-- The shell-specific zero-length escape wrappers of
`format_for_module`; `none` models the
`panic!("Your shell is not supported yet!")` arm. -/
def shell_escapes : Shell → Option (String × String)
  | .Bash => some ("\\[", "\\]")
  | .Zsh => some ("%\x7b", "%\x7d")
  | _ => none

/-- The wrapper pair used around the main content of a module: omitted
entirely when the style carries no background and no foreground
color. -/
def content_len_escapes (style : ModuleStyle) (shell : Shell) : Option (String × String) :=
  if style.background = none ∧ style.foreground = none then some ("", "")
  else shell_escapes shell

/-- The wrapper pair used around a module's separator: omitted when
neither the following background nor the module's own background is
present. -/
def separator_len_escapes (style : ModuleStyle) (next_bg : Option Color) (shell : Shell) :
    Option (String × String) :=
  if next_bg = none ∧ style.background = none then some ("", "")
  else shell_escapes shell

/-- The swapped style `format_for_module` builds for the separator:
foreground becomes the module's own background, background becomes the
next visible module's background, text properties carry over. -/
def separator_module_style (style : ModuleStyle) (next_bg : Option Color) : ModuleStyle :=
  { foreground := style.background
    background := next_bg
    text_properties := style.text_properties }

/-- `format_for_module` (`src/modules/mod.rs`): wrap the (possibly
overridden) content in its style and padding, then append the separator
rendered in the swapped style; `none` models the panic on an
unsupported shell. -/
def format_for_module (s : String) (options : ModuleOptions) (next_bg : Option Color)
    (shell : Shell) : Option String :=
  let s := match options.output with
    | some output => output
    | none => s
  let style := style_from_modulestyle options.style
  match content_len_escapes options.style shell with
  | none => none
  | some (cpre, csuf) =>
    let content := cpre ++ style_pre style ++ csuf ++ options.padding_left ++ s ++
      options.padding_right ++ cpre ++ style_suf style ++ csuf
    match separator_len_escapes options.style next_bg shell with
    | none => none
    | some (spre, ssuf) =>
      let sep_style := style_from_modulestyle (separator_module_style options.style next_bg)
      let separator := spre ++ style_pre sep_style ++ ssuf ++ options.separator ++
        spre ++ style_suf sep_style ++ ssuf
      some (content ++ separator)

/-- `utils::FormatResult`: a module's optional rendered output plus the
background the previous (in display order) module should chain to. -/
structure FormatResult where
  output : Option String := none
  next_bg : Option Color := none
deriving DecidableEq, Repr

instance : Inhabited FormatResult := ⟨{}⟩

/-- `format_exit_code` (`src/modules/exit_code.rs`): read the module
options, then replace the whole resolved style with the success
sub-style exactly when the exit code is `0` and with the error
sub-style otherwise, and render the numeric code. -/
def format_exit_code (c : Config) (exit_code : Nat) (next_bg : Option Color) (shell : Shell) :
    PRes FormatResult :=
  pbind (read_options "exit_code" c) fun options =>
  pbind (read_style "modules.exit_code.style_success" c) fun style_success =>
  pbind (read_style "modules.exit_code.style_error" c) fun style_error =>
  let options := { options with
    style := if exit_code = 0 then style_success else style_error }
  match format_for_module (toString exit_code) options next_bg shell with
  | some out => pok { output := some out, next_bg := options.style.background }
  | none => none

/-- `format_prompt` (`src/modules/prompt.rs`): same success/error
style replacement as the exit-code module, with `"$"` as content. -/
def format_prompt (c : Config) (exit_code : Nat) (next_bg : Option Color) (shell : Shell) :
    PRes FormatResult :=
  pbind (read_options "prompt" c) fun options =>
  pbind (read_style "modules.prompt.style_success" c) fun style_success =>
  pbind (read_style "modules.prompt.style_error" c) fun style_error =>
  let options := { options with
    style := if exit_code = 0 then style_success else style_error }
  match format_for_module "$" options next_bg shell with
  | some out => pok { output := some out, next_bg := options.style.background }
  | none => none

/-- `format_generic` (`src/modules/generic.rs`): a user-defined module
renders only when an `output` override is configured; otherwise it
contributes nothing. -/
def format_generic (name : String) (c : Config) (next_bg : Option Color) (shell : Shell) :
    PRes FormatResult :=
  pbind (read_options name c) fun options =>
  if options.output.isSome then
    match format_for_module "" options next_bg shell with
    | some out => pok { output := some out, next_bg := options.style.background }
    | none => none
  else
    pok {}

/-- The repository HEAD as observed by `format_git`: its optional
shorthand name. -/
structure GitHead where
  shorthand : Option String := none

/-- A discovered repository, as observed by `format_git`. -/
structure GitRepo where
  head : Option GitHead := none
  files_changed : Option Nat := none
  upstream_counts : Option (Nat × Nat) := none

/-- The environmental inputs of `format_git` (`src/modules/git.rs`):
whether the current directory was obtainable and whether a repository
was discovered.  The `files_changed` count stands for a successful
`diff_index_to_workdir` plus `stats` call, and `upstream_counts` for a
successful upstream lookup chain through `graph_ahead_behind`; each
`Option` collapses the corresponding `if let Ok/Some` ladder of the
source, all of whose failure arms contribute nothing. -/
structure GitEnv where
  cwd_ok : Bool := true
  repo : Option GitRepo := none

/-- The status text `format_git` accumulates before formatting. -/
def git_output_text (repo : GitRepo) (head : GitHead) : String :=
  let output := match head.shorthand with
    | some name => name
    | none => ""
  let output := output ++ (match repo.files_changed with
    | some n => if n > 0 then " +" else ""
    | none => "")
  output ++ (match repo.upstream_counts with
    | some (ahead, behind) =>
      (if ahead > 0 then " ⇡" ++ toString ahead else "") ++
      (if behind > 0 then " ⇣" ++ toString behind else "")
    | none => "")

/-- `format_git` (`src/modules/git.rs`): config errors propagate, but
every environmental failure (no cwd, no repository, unborn HEAD, empty
status text) degrades to the default (absent) `FormatResult`. -/
def format_git (env : GitEnv) (c : Config) (next_bg : Option Color) (shell : Shell) :
    PRes FormatResult :=
  pbind (read_options "git" c) fun options =>
  if !env.cwd_ok then pok {}
  else
    match env.repo with
    | none => pok {}
    | some repo =>
      match repo.head with
      | none => pok {}
      | some head =>
        let output := git_output_text repo head
        if output = "" then pok {}
        else
          match format_for_module output options next_bg shell with
          | some out => pok { output := some out, next_bg := options.style.background }
          | none => none

/-- The path-truncation step of `format_cwd` (`src/modules/cwd.rs`),
on the component list of the (already `~`-substituted) working
directory: when the depth exceeds `max_depth`, keep only the trailing
`max_depth` components behind a single `"..."` component. -/
def cwd_truncate (comps : List String) (max_depth : Nat) : List String :=
  let depth := comps.length
  if depth > max_depth then "..." :: comps.drop (depth - max_depth)
  else comps

/-! ### The older formatting iteration (`src/modules.rs`) -/

/-- `Config::get_str` as used by the older iteration: `Config::get`
followed by the scalar-to-string coercion of `Value::into_str`. -/
def get_str (c : Config) (key : String) : Option String :=
  match cget c key with
  | some v => value_into_str v
  | none => none

/-- The 16-way name table inside `string_to_colour`
(`src/modules.rs`), keyed by the lowercased input; `none` models the
`panic!("Invalid color option...")` arm. -/
def colour_name_match : String → Option Color
  | "black" => some (.Fixed 0)
  | "bright_black" => some (.Fixed 8)
  | "red" => some (.Fixed 1)
  | "bright_red" => some (.Fixed 9)
  | "green" => some (.Fixed 2)
  | "bright_green" => some (.Fixed 10)
  | "yellow" => some (.Fixed 3)
  | "bright_yellow" => some (.Fixed 11)
  | "blue" => some (.Fixed 4)
  | "bright_blue" => some (.Fixed 12)
  | "purple" => some (.Fixed 5)
  | "bright_purple" => some (.Fixed 13)
  | "cyan" => some (.Fixed 6)
  | "bright_cyan" => some (.Fixed 14)
  | "white" => some (.Fixed 7)
  | "bright_white" => some (.Fixed 15)
  | _ => none

/-- `string_to_colour` (`src/modules.rs`): first try `parse::<u8>()`
into a fixed color, else match the lowercased string against the 16
names; an unknown name panics (`none`). -/
def string_to_colour (s : String) : Option Color :=
  match parse_u8 s with
  | some i => some (.Fixed i)
  | none => colour_name_match (ascii_lower s)

/-- `string_to_style` (`src/modules.rs`); `none` models the
`panic!("Unknown style property...")` arm. -/
def string_to_style (s : String) : Option Style :=
  match ascii_lower s with
  | "default" | "" | "normal" => some Style.new
  | "bold" => some Style.new.bold
  | "dimmed" => some Style.new.dimmed
  | "italic" => some Style.new.italic
  | "underline" => some Style.new.underline
  | "blink" => some Style.new.blink
  | "reverse" => some Style.new.reverse
  | "hidden" => some Style.new.hidden
  | "strikethrough" => some Style.new.strikethrough
  | _ => none

/-- The shell-string-keyed wrapper selection of the older
`format_module` (`src/modules.rs`): `"zsh"` selects the zsh wrappers
and every other identifier silently selects the bash-style ones. -/
def old_wrappers (shell : String) : String × String :=
  ((if shell = "zsh" then "%\x7b" else "\\["),
   (if shell = "zsh" then "%\x7d" else "\\]"))

/-- The older generic `format_module` (`src/modules.rs`): resolves
colors/paddings/style through `get_str` fallbacks to the `global.*`
keys, renders content and separator, and colors the separator with the
background of `last_successful` (the visible module after this one) or
flat when there is none.  `none` models any `panic!` on the way
(unknown colors or style strings). -/
def format_module (c : Config) (name : String) (output : Option String)
    (last_successful : Option String) : Option (Option String × Option String) :=
  if (get_str c ("modules." ++ name ++ ".output")).isNone ∧ output.isNone then
    some (none, none)
  else
    match string_to_colour ((get_str c ("modules." ++ name ++ ".foreground")).getD
        ((get_str c "global.foreground").getD "")) with
    | none => none
    | some fg =>
      let bg_str := (get_str c ("modules." ++ name ++ ".background")).getD ""
      let bg_str := if bg_str = "" then (get_str c "global.background").getD "" else bg_str
      match string_to_colour bg_str with
      | none => none
      | some bg =>
        let padding_left := (get_str c ("modules." ++ name ++ ".padding_left")).getD
          ((get_str c "global.padding_left").getD "")
        let padding_right := (get_str c ("modules." ++ name ++ ".padding_right")).getD
          ((get_str c "global.padding_right").getD "")
        let separator := (get_str c ("modules." ++ name ++ ".separator")).getD
          ((get_str c "global.separator").getD "")
        match string_to_style ((get_str c ("modules." ++ name ++ ".style")).getD
            ((get_str c "global.style").getD "")) with
        | none => none
        | some st =>
          let main_style := (st.on bg).fg fg
          -- `output.unwrap()` in the source: unreachable `none` (the
          -- guard above returned early), modelled with `getD ""`.
          let output := match get_str c ("modules." ++ name ++ ".output") with
            | some s => s
            | none => output.getD ""
          let shell := (get_str c "global.shell").getD ""
          let (start_wrapper, end_wrapper) := old_wrappers shell
          let content := start_wrapper ++ style_pre main_style ++ end_wrapper ++
            padding_left ++ output ++ padding_right ++
            start_wrapper ++ style_suf main_style ++ end_wrapper
          let main_style := (main_style.on fg).fg bg
          match last_successful with
          | some nm =>
            match string_to_colour ((get_str c ("modules." ++ nm ++ ".background")).getD
                ((get_str c "global.background").getD "")) with
            | none => none
            | some next_bg =>
              some (some name, some (content ++
                start_wrapper ++ style_pre (main_style.on next_bg) ++ end_wrapper ++
                separator ++
                start_wrapper ++ style_suf (main_style.on next_bg) ++ end_wrapper))
          | none =>
            some (some name, some (content ++
              start_wrapper ++ colour_pre bg ++ end_wrapper ++
              separator ++
              start_wrapper ++ colour_suf bg ++ end_wrapper))

/-- The middle-collapsing truncation loop of `format_module_directory`
(`src/modules.rs`), over the path's component list: keep the first
`max_depth / 2` and last `max_depth / 2` components and put one
`"..."` where the middle range began. -/
def truncate_middle_path (comps : List String) (max_depth : Nat) : List String :=
  let depth := comps.length
  comps.enum.foldl
    (fun acc p =>
      if p.1 < max_depth / 2 ∨ p.1 ≥ depth - max_depth / 2 then acc ++ [p.2]
      else if p.1 = max_depth / 2 then acc ++ ["..."]
      else acc)
    []

/-- The leading-collapsing truncation loop of `format_module_directory`
(`src/modules.rs`): one `"..."`, then the last `max_depth`
components. -/
def truncate_leading_path (comps : List String) (max_depth : Nat) : List String :=
  let depth := comps.length
  comps.enum.foldl
    (fun acc p => if p.1 ≥ depth - max_depth then acc ++ [p.2] else acc)
    ["..."]

/-- The truncation step of `format_module_directory`
(`src/modules.rs`): truncate only when the depth exceeds `max_depth`,
with the policy chosen by the `truncate_middle` flag. -/
def directory_truncate (comps : List String) (max_depth : Nat) (truncate_middle : Bool) :
    List String :=
  if comps.length > max_depth then
    if truncate_middle then truncate_middle_path comps max_depth
    else truncate_leading_path comps max_depth
  else comps

/-! ### The chain-renderer loop

The loop that walks the configured module list and threads
`next_background` through the providers is not under `src/` (only the
providers and `format_for_module` are), so it is modelled from the
spec below. -/

/-- A segment content provider, as the chain loop sees one.  In the
source every provider's visibility (`output.is_some()`) and resolved
background (`options.style.background`) do not depend on the `next_bg`
argument; only the rendered text does, which is why a provider is
faithfully a `visible` flag, a fixed chained background `bg`, and a
rendering function of the incoming `next_bg`. -/
structure Provider where
  visible : Bool
  bg : Option Color
  render : Option Color → String

/-- Modelled from the spec: the `next_background` state after the
reverse walk has processed a (display-order) suffix of the segment
list, starting from `init` ("no following visible segment").  A
visible segment overwrites the state with its own resolved background;
a segment with no content leaves the state unchanged. -/
def nb_after (ps : List Provider) (init : Option Color) : Option Color :=
  match ps with
  | [] => init
  | p :: rest =>
    let s := nb_after rest init
    if p.visible then p.bg else s

/-- Modelled from the spec: the `next_background` value the chain loop
hands to the provider at display position `i` (the state after the
reverse walk has processed everything to the right of `i`). -/
def received_bg (ps : List Provider) (init : Option Color) (i : Nat) : Option Color :=
  nb_after (ps.drop (i + 1)) init

/-- Modelled from the spec: the per-position outputs of the chain loop,
in display order (`none` at invisible positions, which are fully
skipped). -/
def chain_outputs (ps : List Provider) (init : Option Color) : List (Option String) :=
  match ps with
  | [] => []
  | p :: rest =>
    let outs := chain_outputs rest init
    let nb := nb_after rest init
    (if p.visible then some (p.render nb) else none) :: outs

/-! ### The external command executor (`src/main.rs`) -/

/-- The messages the worker threads send over the channel: one
`(original index, stdout)` pair per command whose spawn, exit status
and UTF-8 decoding all succeeded.  A failing command's worker panics
before sending, so it contributes nothing (and the process keeps
running).  `outcomes` holds `some stdout` for a succeeding command and
`none` for a failing one, in original call order starting at index
`k`. -/
def successes (k : Nat) : List (Option String) → List (Nat × String)
  | [] => []
  | o :: rest =>
    match o with
    | some s => (k, s) :: successes (k + 1) rest
    | none => successes (k + 1) rest

/-- The derived `Ord` on `(usize, String)` that `results.sort()` uses:
lexicographic on the index, then the string. -/
def result_le (a b : Nat × String) : Prop :=
  a.1 < b.1 ∨ (a.1 = b.1 ∧ a.2 ≤ b.2)

instance : DecidableRel result_le := fun a b => by
  unfold result_le
  infer_instance

instance : IsTrans (Nat × String) result_le where
  trans a b c hab hbc := by
    rcases hab with h | ⟨h, h2⟩ <;> rcases hbc with h' | ⟨h', h2'⟩
    · exact Or.inl (h.trans h')
    · exact Or.inl (h'.symm ▸ h)
    · exact Or.inl (h ▸ h')
    · exact Or.inr ⟨h.trans h', le_trans h2 h2'⟩

instance : IsAntisymm (Nat × String) result_le where
  antisymm a b hab hba := by
    rcases hab with h | ⟨h, h2⟩ <;> rcases hba with h' | ⟨h', h2'⟩
    · exact absurd (h.trans h') (lt_irrefl _)
    · exact absurd h (h' ▸ lt_irrefl _)
    · exact absurd h' (h ▸ lt_irrefl _)
    · exact Prod.ext h (le_antisymm h2 h2')

instance : IsTotal (Nat × String) result_le where
  total a b := by
    rcases Nat.lt_trichotomy a.1 b.1 with h | h | h
    · exact Or.inl (Or.inl h)
    · rcases le_total a.2 b.2 with h2 | h2
      · exact Or.inl (Or.inr ⟨h, h2⟩)
      · exact Or.inr (Or.inr ⟨h.symm, h2⟩)
    · exact Or.inr (Or.inl h)

/-- The reassembly in `main` (`src/main.rs`): collect whatever arrived
on the channel, `sort()` it by original index, and print the stdout
fields in that order (the plain path, with no separator flag and no
newline stripping). -/
def main_output (received : List (Nat × String)) : String :=
  String.join ((received.insertionSort result_le).map Prod.snd)

/-! ### Supporting lemmas -/

/-- ASCII lowercasing fixes digit lists. -/
theorem map_lower_of_digits (l : List Char) (h : l.all is_digit = true) :
    l.map lower_char = l := by
  induction l with
  | nil => rfl
  | cons c rest ih =>
    simp only [List.all_cons, Bool.and_eq_true] at h
    have hc : lower_char c = c := by
      unfold lower_char
      rw [if_neg]
      simp only [is_digit, Bool.and_eq_true, decide_eq_true_eq] at h
      omega
    simp [hc, ih h.2]

/-- A string accepted by `parse_u8` is already lowercase. -/
theorem parse_u8_lower_fix (s : String) (n : Nat) (h : parse_u8 s = some n) :
    ascii_lower s = s := by
  rcases s with ⟨data⟩
  suffices hs : data.map lower_char = data by
    exact congrArg String.mk hs
  cases data with
  | nil => simp [parse_u8] at h
  | cons c rest =>
    by_cases hc : c = '+'
    · subst hc
      simp only [parse_u8, if_pos rfl] at h
      have hne : rest ≠ [] := by
        intro he
        simp [he] at h
      have hall : rest.all is_digit = true := by
        by_contra hna
        simp [hne, hna] at h
      have hplus : lower_char '+' = '+' := by decide
      simp [hplus, map_lower_of_digits rest hall]
    · simp only [parse_u8, if_neg hc] at h
      have hall : (c :: rest).all is_digit = true := by
        by_contra hna
        simp [hna] at h
      exact map_lower_of_digits _ hall

/-- `string_to_colour` on any case-variant of a name the 16-way table
knows. -/
theorem string_to_colour_of_lower (s name : String) (c : Color)
    (h : ascii_lower s = name) (hm : colour_name_match name = some c)
    (hn : parse_u8 name = none) : string_to_colour s = some c := by
  unfold string_to_colour
  cases hpu : parse_u8 s with
  | none =>
    show colour_name_match (ascii_lower s) = some c
    rw [h]
    exact hm
  | some n =>
    exfalso
    have hfix := parse_u8_lower_fix s n hpu
    rw [hfix] at h
    subst h
    rw [hn] at hpu
    cases hpu

/-- An ANSI escape sequence is never the empty string. -/
theorem esc_ne_empty (y z : String) : "\x1B[" ++ y ++ z ≠ "" := by
  intro h
  have h2 : ('\x1B' :: '[' :: (y.data ++ z.data) : List Char) = [] :=
    congrArg String.data h
  cases h2

/-! ### C6 -/

/-- C6: RGB string parsing returns a malformed-value error for
`"(256, 0, 0)"` (component out of 8-bit range) and for `"(1,2,3,4)"`
(wrong arity), returns `RGB(1,2,3)` for `"(1, 2, 3)"`, and accepts
cosmetically malformed input with extra trailing parentheses or
spaces. -/
theorem rgb_parse_cases :
    try_rgb_from_str "(256, 0, 0)" = .error ⟨.IntParseFailure⟩ ∧
    try_rgb_from_str "(1,2,3,4)" = .error ⟨.ConfigParseFailure⟩ ∧
    try_rgb_from_str "(1, 2, 3)" = .ok (.RGB 1 2 3) ∧
    try_rgb_from_str "(0, 0, 0))" = .ok (.RGB 0 0 0) ∧
    try_rgb_from_str "( 10 , 20 , 30 )" = .ok (.RGB 10 20 30) := by
  decide

/-! ### C2 -/

/-- The 16 color names of the older `string_to_colour` with their fixed
palette indices. -/
def colour_name_table : List (String × Nat) :=
  [("black", 0), ("bright_black", 8), ("red", 1), ("bright_red", 9),
   ("green", 2), ("bright_green", 10), ("yellow", 3), ("bright_yellow", 11),
   ("blue", 4), ("bright_blue", 12), ("purple", 5), ("bright_purple", 13),
   ("cyan", 6), ("bright_cyan", 14), ("white", 7), ("bright_white", 15)]

/-- C2 counterexample: the newer color-parsing pipeline rejects the
bright names — `try_color_from_str` knows only the 8 base names, so
`"bright_green"` falls through every stage of `try_color_from_config`
and parsing fails instead of succeeding as the claim states. -/
theorem bright_name_rejected :
    try_color_from_str "bright_green" = .error ⟨.NoSuchMatchInConfig⟩ ∧
    try_color_from_config "foreground" [("foreground", .VString "bright_green")] =
      perr ⟨.ConfigParseFailure⟩ := by
  decide

/-- C2 amended: in the older iteration's `string_to_colour`, each of
the 16 named color strings, compared case-insensitively, parses to the
`Fixed` palette entry of its documented index (green → 2,
bright_green → 10), and the emitted foreground escape sequence uses
that fixed palette index; the newer `try_color_from_str` supports only
the 8 non-bright names. -/
theorem named_colour_fixed_index :
    ∀ p ∈ colour_name_table, ∀ s : String, ascii_lower s = p.1 →
      string_to_colour s = some (.Fixed p.2) ∧
      colour_pre (.Fixed p.2) = "\x1B[38;5;" ++ toString p.2 ++ "m" := by
  intro p hp s hs
  fin_cases hp <;>
    exact ⟨string_to_colour_of_lower _ _ _ hs (by decide) (by decide), by decide⟩

/-- C2 witness: `"BRIGHT_green"` at the table entry
`("bright_green", 10)`. -/
theorem named_colour_fixed_index_witness :
    string_to_colour "BRIGHT_green" = some (.Fixed 10) ∧
    colour_pre (.Fixed 10) = "\x1B[38;5;" ++ toString 10 ++ "m" :=
  named_colour_fixed_index ("bright_green", 10) (by decide) "BRIGHT_green" (by decide)

/-! ### C3 -/

/-- The configuration of the C3 counterexample: an unsupported shell
identifier together with a fully styled module. -/
def c3_cfg : Config :=
  [("global.shell", .VString "fish"), ("global.foreground", .VString "white"),
   ("global.background", .VString "blue"), ("modules.test.output", .VString "hi")]

/-- C3 counterexample: the older `format_module` renders a styled
fragment for the unsupported shell string `"fish"` without any fatal
error, silently falling back to the bash-style wrapper tokens (the
output contains `\[` and no `%{`). -/
theorem old_shell_silent_fallback :
    (format_module c3_cfg "test" none none).isSome = true ∧
    (match format_module c3_cfg "test" none none with
     | some (some _, some out) => has_sub out "\\[" && !(has_sub out "%\x7b")
     | _ => false) = true := by
  decide

/-- C3 amended: in the newer `format_for_module`, rendering a
color-styled fragment for any shell other than bash and zsh is a fatal
internal error (a panic, `none` here), never a silent fallback; bash's
length-hiding wrappers are `\[`/`\]` and zsh's are `%{`/`%}`.  The
older string-keyed `format_module` instead silently treats every
non-zsh identifier as bash. -/
theorem unsupported_shell_fatal_new :
    shell_escapes .Bash = some ("\\[", "\\]") ∧
    shell_escapes .Zsh = some ("%\x7b", "%\x7d") ∧
    (∀ sh : Shell, sh ≠ .Bash → sh ≠ .Zsh →
      ∀ (s : String) (opts : ModuleOptions) (nb : Option Color),
        opts.style.background.isSome ∨ opts.style.foreground.isSome →
        format_for_module s opts nb sh = none) := by
  refine ⟨rfl, rfl, ?_⟩
  intro sh h1 h2 s opts nb hst
  have hcond : ¬(opts.style.background = none ∧ opts.style.foreground = none) := by
    rintro ⟨hb, hf⟩
    rcases hst with h | h
    · rw [hb] at h
      cases h
    · rw [hf] at h
      cases h
  have hesc : shell_escapes sh = none := by
    cases sh
    · exact absurd rfl h1
    · exact absurd rfl h2
    · rfl
    · rfl
    · rfl
  simp only [format_for_module, content_len_escapes, if_neg hcond, hesc]

/-- C3 witness: a blue-background fragment rendered for fish panics. -/
theorem unsupported_shell_fatal_new_witness :
    format_for_module "" ({ style := { background := some Color.Blue } } : ModuleOptions)
      none Shell.Fish = none :=
  unsupported_shell_fatal_new.2.2 Shell.Fish (by decide) (by decide) ""
    ({ style := { background := some Color.Blue } } : ModuleOptions) none (Or.inl rfl)

/-! ### C7 -/

/-- The options of the C7 counterexample: no colors, but a bold text
attribute. -/
def c7_opts : ModuleOptions :=
  { output := none, padding_left := "", padding_right := "", separator := "",
    style := { background := none, foreground := none,
               text_properties := some Style.new.bold } }

/-- C7 counterexample: a fragment styled with no colors but with a
bold text attribute emits style escape codes (`ESC[`) yet is wrapped in
no length-hiding markers at all (no `\[` under bash), so the markers
are not emitted "iff escape codes are emitted". -/
theorem bold_without_marker :
    format_for_module "x" c7_opts none .Bash = some "\x1B[1mx\x1B[0m\x1B[1m\x1B[0m" ∧
    has_sub "\x1B[1mx\x1B[0m\x1B[1m\x1B[0m" "\x1B[" = true ∧
    has_sub "\x1B[1mx\x1B[0m\x1B[1m\x1B[0m" "\\[" = false := by
  decide

/-- C7 amended: the length-hiding markers are keyed on colors only —
the content wrapper is omitted exactly when the style has neither
background nor foreground color, and the separator wrapper exactly when
neither the next background nor the module's own background is present;
escape codes themselves are emitted exactly for non-plain styles, so a
colorless fragment with text attributes (e.g. bold) emits escape codes
without markers, while a fragment with no colors and no text attributes
gets no markers and no escape codes. -/
theorem marker_emission_colors_only :
    (∀ (st : ModuleStyle) (sh : Shell),
      content_len_escapes st sh = some ("", "") ↔
        st.background = none ∧ st.foreground = none) ∧
    (∀ (st : ModuleStyle) (nb : Option Color) (sh : Shell),
      separator_len_escapes st nb sh = some ("", "") ↔
        nb = none ∧ st.background = none) ∧
    (∀ st : Style, style_pre st = "" ↔ st = Style.new) ∧
    (∀ st : ModuleStyle, st.background = none → st.foreground = none →
      st.text_properties = some Style.new.bold →
      content_len_escapes st Shell.Bash = some ("", "") ∧
      style_pre (style_from_modulestyle st) = "\x1B[1m") := by
  refine ⟨?_, ?_, ?_, ?_⟩
  · intro st sh
    by_cases h : st.background = none ∧ st.foreground = none
    · simp [content_len_escapes, h]
    · simp only [content_len_escapes, if_neg h]
      constructor
      · intro he
        exfalso
        revert he
        cases sh <;> decide
      · intro hand
        exact absurd hand h
  · intro st nb sh
    by_cases h : nb = none ∧ st.background = none
    · simp [separator_len_escapes, h]
    · simp only [separator_len_escapes, if_neg h]
      constructor
      · intro he
        exfalso
        revert he
        cases sh <;> decide
      · intro hand
        exact absurd hand h
  · intro st
    by_cases h : st = Style.new
    · simp [style_pre, h]
    · simp only [style_pre, if_neg h]
      constructor
      · intro he
        exact absurd he (esc_ne_empty _ _)
      · intro hnew
        exact absurd hnew h
  · intro st hb hf ht
    constructor
    · simp [content_len_escapes, hb, hf]
    · simp [style_from_modulestyle, hb, hf, ht]
      decide

/-- C7 witness: the colors-only marker rule applied to the bold,
colorless style. -/
theorem marker_emission_colors_only_witness :
    content_len_escapes ({ background := none, foreground := none,
                           text_properties := some Style.new.bold } : ModuleStyle)
        Shell.Bash = some ("", "") ∧
    style_pre (style_from_modulestyle
        ({ background := none, foreground := none,
           text_properties := some Style.new.bold } : ModuleStyle)) = "\x1B[1m" :=
  marker_emission_colors_only.2.2.2
    ({ background := none, foreground := none,
       text_properties := some Style.new.bold } : ModuleStyle)
    rfl rfl rfl

/-! ### C10 -/

/-- C10: the separator's style is the segment's own style with exactly
the foreground and background changed — foreground becomes the
segment's background, background becomes `next_bg` — and the text
attributes carry over unchanged; when both colors are present the
rendered separator style is the segment's text-attribute style with
just those two colors overlaid. -/
theorem separator_style_frame :
    (∀ (st : ModuleStyle) (nb : Option Color),
      (separator_module_style st nb).foreground = st.background ∧
      (separator_module_style st nb).background = nb ∧
      (separator_module_style st nb).text_properties = st.text_properties) ∧
    (∀ (st : ModuleStyle) (nb : Option Color) (b n : Color),
      st.background = some b → nb = some n →
      style_from_modulestyle (separator_module_style st nb) =
        { st.text_properties.getD Style.new with
          foreground := some b, background := some n }) := by
  constructor
  · intro st nb
    exact ⟨rfl, rfl, rfl⟩
  · intro st nb b n hb hn
    simp [style_from_modulestyle, separator_module_style, hb, hn, Style.on, Style.fg]

/-- C10 witness: a bold blue-on-white segment chaining into a green
successor. -/
theorem separator_style_frame_witness :
    style_from_modulestyle (separator_module_style
      ({ background := some Color.Blue, foreground := some Color.White,
         text_properties := some Style.new.bold } : ModuleStyle) (some Color.Green)) =
      { Style.new.bold with foreground := some Color.Blue,
                            background := some Color.Green } :=
  separator_style_frame.2
    ({ background := some Color.Blue, foreground := some Color.White,
       text_properties := some Style.new.bold } : ModuleStyle)
    (some Color.Green) Color.Blue Color.Green rfl rfl

/-! ### C4 -/

/-- C4: for every exit code, the exit-code provider (and likewise the
prompt provider) selects the success sub-style exactly when the code is
`0` and the error sub-style otherwise, and the selected sub-style
replaces the resolved style as a whole — the previously resolved
`opts.style` does not appear anywhere in the rendered result or the
chained background. -/
theorem exit_code_style_replacement :
    (∀ (c : Config) (code : Nat) (nb : Option Color) (sh : Shell)
       (opts : ModuleOptions) (ss se : ModuleStyle),
      read_options "exit_code" c = pok opts →
      read_style "modules.exit_code.style_success" c = pok ss →
      read_style "modules.exit_code.style_error" c = pok se →
      format_exit_code c code nb sh =
        (match format_for_module (toString code)
            { opts with style := if code = 0 then ss else se } nb sh with
         | some out => pok { output := some out,
                             next_bg := (if code = 0 then ss else se).background }
         | none => none)) ∧
    (∀ (c : Config) (code : Nat) (nb : Option Color) (sh : Shell)
       (opts : ModuleOptions) (ss se : ModuleStyle),
      read_options "prompt" c = pok opts →
      read_style "modules.prompt.style_success" c = pok ss →
      read_style "modules.prompt.style_error" c = pok se →
      format_prompt c code nb sh =
        (match format_for_module "$"
            { opts with style := if code = 0 then ss else se } nb sh with
         | some out => pok { output := some out,
                             next_bg := (if code = 0 then ss else se).background }
         | none => none)) := by
  constructor
  · intro c code nb sh opts ss se h1 h2 h3
    unfold format_exit_code
    rw [h1, h2, h3]
    rfl
  · intro c code nb sh opts ss se h1 h2 h3
    unfold format_prompt
    rw [h1, h2, h3]
    rfl

/-- The configuration of the C4 witness: green/red success and error
backgrounds for both providers (the configuration of the source's own
tests). -/
def c4_cfg : Config :=
  [("modules.exit_code.style_success.background", .VString "green"),
   ("modules.exit_code.style_error.background", .VString "red"),
   ("modules.prompt.style_success.background", .VString "green"),
   ("modules.prompt.style_error.background", .VString "red")]

/-- The success sub-style resolved by the C4 witness configuration. -/
def c4_ss : ModuleStyle := { background := some Color.Green }

/-- The error sub-style resolved by the C4 witness configuration. -/
def c4_se : ModuleStyle := { background := some Color.Red }

/-- C4 witness: exit code `0` under bash with the test
configuration. -/
theorem exit_code_style_replacement_witness :
    (format_exit_code c4_cfg 0 none .Bash =
      (match format_for_module (toString 0)
          { ({} : ModuleOptions) with style := if 0 = 0 then c4_ss else c4_se } none .Bash with
       | some out => pok { output := some out,
                           next_bg := (if 0 = 0 then c4_ss else c4_se).background }
       | none => none)) ∧
    (format_prompt c4_cfg 1 none .Bash =
      (match format_for_module "$"
          { ({} : ModuleOptions) with style := if 1 = 0 then c4_ss else c4_se } none .Bash with
       | some out => pok { output := some out,
                           next_bg := (if 1 = 0 then c4_ss else c4_se).background }
       | none => none)) :=
  ⟨exit_code_style_replacement.1 c4_cfg 0 none .Bash {} c4_ss c4_se
     (by decide) (by decide) (by decide),
   exit_code_style_replacement.2 c4_cfg 1 none .Bash {} c4_ss c4_se
     (by decide) (by decide) (by decide)⟩

/-! ### C5 -/

/-- C5: a path of component depth 6 rendered with `max_depth` 4 yields
exactly 4 visible real components plus exactly one `"..."` component,
under the old iteration's truncate-middle and truncate-leading policies
and under the newer `format_cwd` truncation alike (the two leading
policies agree on `"..."` followed by the last 4 components; the middle
policy keeps the first 2 and last 2 around one `"..."`). -/
theorem depth6_truncation :
    ∀ comps : List String, comps.length = 6 →
      directory_truncate comps 4 true = comps.take 2 ++ "..." :: comps.drop 4 ∧
      directory_truncate comps 4 false = "..." :: comps.drop 2 ∧
      cwd_truncate comps 4 = "..." :: comps.drop 2 ∧
      ("..." ∉ comps →
        (directory_truncate comps 4 true).length = 5 ∧
        (directory_truncate comps 4 true).count "..." = 1 ∧
        (directory_truncate comps 4 false).length = 5 ∧
        (directory_truncate comps 4 false).count "..." = 1 ∧
        (cwd_truncate comps 4).length = 5 ∧
        (cwd_truncate comps 4).count "..." = 1) := by
  intro comps h6
  match comps, h6 with
  | [a, b, c, d, e, f], _ =>
    refine ⟨rfl, rfl, rfl, ?_⟩
    intro hmem
    simp only [List.mem_cons, not_or] at hmem
    obtain ⟨ha, hb, hc, hd, he, hf, -⟩ := hmem
    refine ⟨rfl, ?_, rfl, ?_, rfl, ?_⟩
    · show List.count "..." [a, b, "...", e, f] = 1
      simp [List.count_cons, ha, hb, he, hf]
    · show List.count "..." ["...", c, d, e, f] = 1
      simp [List.count_cons, hc, hd, he, hf]
    · show List.count "..." ["...", c, d, e, f] = 1
      simp [List.count_cons, hc, hd, he, hf]

/-- C5 witness: a six-component home-relative path. -/
theorem depth6_truncation_witness :
    directory_truncate ["~", "a", "b", "c", "d", "e"] 4 true =
       ["~", "a", "b", "c", "d", "e"].take 2 ++ "..." :: ["~", "a", "b", "c", "d", "e"].drop 4 ∧
    directory_truncate ["~", "a", "b", "c", "d", "e"] 4 false =
       "..." :: ["~", "a", "b", "c", "d", "e"].drop 2 ∧
    cwd_truncate ["~", "a", "b", "c", "d", "e"] 4 =
       "..." :: ["~", "a", "b", "c", "d", "e"].drop 2 ∧
    ("..." ∉ ["~", "a", "b", "c", "d", "e"] →
      (directory_truncate ["~", "a", "b", "c", "d", "e"] 4 true).length = 5 ∧
      (directory_truncate ["~", "a", "b", "c", "d", "e"] 4 true).count "..." = 1 ∧
      (directory_truncate ["~", "a", "b", "c", "d", "e"] 4 false).length = 5 ∧
      (directory_truncate ["~", "a", "b", "c", "d", "e"] 4 false).count "..." = 1 ∧
      (cwd_truncate ["~", "a", "b", "c", "d", "e"] 4).length = 5 ∧
      (cwd_truncate ["~", "a", "b", "c", "d", "e"] 4).count "..." = 1) :=
  depth6_truncation ["~", "a", "b", "c", "d", "e"] rfl

/-! ### C8 -/

/-- A string that `try_text_props_from_vec` accepts: its lowercasing is
one of the eight attribute names. -/
def valid_text_prop (s : String) : Prop :=
  ascii_lower s ∈ (["bold", "blink", "dimmed", "hidden", "italic", "reverse",
                    "strikethrough", "underline"] : List String)

instance (s : String) : Decidable (valid_text_prop s) := by
  unfold valid_text_prop
  infer_instance

/-- The flag-set view of the attribute fold: each flag of the result is
the initial flag or-ed with "some list element lowercases to this
name". -/
def props_flags (st : Style) (l : List String) : Style :=
  { st with
    is_bold := st.is_bold || l.any (fun s => ascii_lower s == "bold"),
    is_blink := st.is_blink || l.any (fun s => ascii_lower s == "blink"),
    is_dimmed := st.is_dimmed || l.any (fun s => ascii_lower s == "dimmed"),
    is_hidden := st.is_hidden || l.any (fun s => ascii_lower s == "hidden"),
    is_italic := st.is_italic || l.any (fun s => ascii_lower s == "italic"),
    is_reverse := st.is_reverse || l.any (fun s => ascii_lower s == "reverse"),
    is_strikethrough :=
      st.is_strikethrough || l.any (fun s => ascii_lower s == "strikethrough"),
    is_underline := st.is_underline || l.any (fun s => ascii_lower s == "underline") }

/-- On valid attribute lists, the fold of `try_text_props_from_vec`
computes the flag-set view. -/
theorem text_props_fold_flags (l : List String) (st : Style)
    (h : ∀ s ∈ l, valid_text_prop s) :
    text_props_fold st l = .ok (props_flags st l) := by
  induction l generalizing st with
  | nil => simp [text_props_fold, props_flags]
  | cons s rest ih =>
    have hs := h s (List.mem_cons_self s rest)
    have hrest : ∀ t ∈ rest, valid_text_prop t := fun t ht => h t (List.mem_cons_of_mem s ht)
    unfold valid_text_prop at hs
    simp only [List.mem_cons, List.not_mem_nil, or_false] at hs
    have hstep : ∃ st', apply_text_prop st s = .ok st' ∧
        props_flags st' rest = props_flags st (s :: rest) := by
      rcases hs with hc | hc | hc | hc | hc | hc | hc | hc
      · exact ⟨st.bold, by unfold apply_text_prop; rw [hc]; rfl,
          by unfold props_flags
             simp +decide [Style.bold, List.any_cons, hc]⟩
      · exact ⟨st.blink, by unfold apply_text_prop; rw [hc]; rfl,
          by unfold props_flags
             simp +decide [Style.blink, List.any_cons, hc]⟩
      · exact ⟨st.dimmed, by unfold apply_text_prop; rw [hc]; rfl,
          by unfold props_flags
             simp +decide [Style.dimmed, List.any_cons, hc]⟩
      · exact ⟨st.hidden, by unfold apply_text_prop; rw [hc]; rfl,
          by unfold props_flags
             simp +decide [Style.hidden, List.any_cons, hc]⟩
      · exact ⟨st.italic, by unfold apply_text_prop; rw [hc]; rfl,
          by unfold props_flags
             simp +decide [Style.italic, List.any_cons, hc]⟩
      · exact ⟨st.reverse, by unfold apply_text_prop; rw [hc]; rfl,
          by unfold props_flags
             simp +decide [Style.reverse, List.any_cons, hc]⟩
      · exact ⟨st.strikethrough, by unfold apply_text_prop; rw [hc]; rfl,
          by unfold props_flags
             simp +decide [Style.strikethrough, List.any_cons, hc]⟩
      · exact ⟨st.underline, by unfold apply_text_prop; rw [hc]; rfl,
          by unfold props_flags
             simp +decide [Style.underline, List.any_cons, hc]⟩
    obtain ⟨st', happ, hflags⟩ := hstep
    unfold text_props_fold
    rw [happ]
    show text_props_fold st' rest = Except.ok (props_flags st (s :: rest))
    rw [ih st' hrest, hflags]

/-- `List.any` depends only on membership. -/
theorem any_congr_mem {l₁ l₂ : List String} {p : String → Bool}
    (h₁ : ∀ s ∈ l₁, s ∈ l₂) (h₂ : ∀ s ∈ l₂, s ∈ l₁) : l₁.any p = l₂.any p := by
  rw [Bool.eq_iff_iff]
  simp only [List.any_eq_true]
  constructor
  · rintro ⟨x, hx, hp⟩
    exact ⟨x, h₁ x hx, hp⟩
  · rintro ⟨x, hx, hp⟩
    exact ⟨x, h₂ x hx, hp⟩

/-- C8: text-attribute resolution is idempotent and order-independent:
`["bold","bold"]` resolves like `["bold"]`, and any two lists of valid
attribute strings with the same members (so under duplication and
reordering) resolve to the same style. -/
theorem text_props_idempotent_commutative :
    try_text_props_from_vec ["bold", "bold"] = try_text_props_from_vec ["bold"] ∧
    (∀ l₁ l₂ : List String,
      (∀ s ∈ l₁, valid_text_prop s) → (∀ s ∈ l₂, valid_text_prop s) →
      (∀ s ∈ l₁, s ∈ l₂) → (∀ s ∈ l₂, s ∈ l₁) →
      try_text_props_from_vec l₁ = try_text_props_from_vec l₂) := by
  constructor
  · decide
  · intro l₁ l₂ hv₁ hv₂ h₁ h₂
    unfold try_text_props_from_vec
    rw [text_props_fold_flags l₁ Style.new hv₁, text_props_fold_flags l₂ Style.new hv₂]
    unfold props_flags
    simp only [any_congr_mem h₁ h₂]

/-- C8 witness: `["bold","bold","underline"]` against
`["underline","bold"]`. -/
theorem text_props_idempotent_commutative_witness :
    try_text_props_from_vec ["bold", "bold", "underline"] =
      try_text_props_from_vec ["underline", "bold"] :=
  text_props_idempotent_commutative.2 ["bold", "bold", "underline"] ["underline", "bold"]
    (by decide) (by decide) (by decide) (by decide)

/-! ### C1 -/

/-- The output of the chain loop at position `i`: determined by the
segment at `i` and the state accumulated over the segments after it. -/
theorem chain_outputs_getD (ps : List Provider) (init : Option Color) (i : Nat) :
    (chain_outputs ps init).getD i none =
      (match ps.drop i with
       | [] => none
       | p :: rest => if p.visible then some (p.render (nb_after rest init)) else none) := by
  induction ps generalizing i with
  | nil => cases i <;> simp [chain_outputs]
  | cons p rest ih =>
    cases i with
    | zero => simp [chain_outputs]
    | succ n =>
      simp only [chain_outputs, List.getD_cons_succ, List.drop_succ_cons]
      exact ih n

/-- C1: in any segment list where segment `i` is visible, segment
`i + 1` is invisible, and segment `i + 2` is visible, the chain loop
hands segment `i` the resolved background of segment `i + 2` (so its
separator is colored with it), never segment `i + 1`'s; a provider with
no content leaves the `next_background` state unchanged; and the git
provider outside any repository is exactly such an invisible provider
(`FormatResult::default()`, not an error). -/
theorem invisible_segment_chain :
    (∀ (ps tl : List Provider) (init : Option Color) (i : Nat) (p0 p1 p2 : Provider),
      ps.drop i = p0 :: p1 :: p2 :: tl →
      p0.visible = true → p1.visible = false → p2.visible = true →
      received_bg ps init i = p2.bg ∧
      (chain_outputs ps init).getD i none = some (p0.render p2.bg)) ∧
    (∀ (p : Provider) (rest : List Provider) (init : Option Color),
      p.visible = false → nb_after (p :: rest) init = nb_after rest init) ∧
    (∀ (env : GitEnv) (c : Config) (nb : Option Color) (sh : Shell)
       (opts : ModuleOptions),
      read_options "git" c = pok opts → env.repo = none →
      format_git env c nb sh = pok {}) := by
  refine ⟨?_, ?_, ?_⟩
  · intro ps tl init i p0 p1 p2 hdrop h0 h1 h2
    have hdrop1 : ps.drop (i + 1) = p1 :: p2 :: tl := by
      rw [← List.drop_drop 1 i, hdrop]
      rfl
    have hrecv : received_bg ps init i = p2.bg := by
      unfold received_bg
      rw [hdrop1]
      simp [nb_after, h1, h2]
    refine ⟨hrecv, ?_⟩
    rw [chain_outputs_getD, hdrop]
    simp only [h0, if_true]
    have : nb_after (p1 :: p2 :: tl) init = p2.bg := by
      simp [nb_after, h1, h2]
    rw [this]
  · intro p rest init hp
    simp [nb_after, hp]
  · intro env c nb sh opts h1 h2
    unfold format_git
    rw [h1, h2]
    cases env.cwd_ok <;> rfl

/-- The first provider of the C1 witness: visible, blue background,
rendering through `format_for_module`. -/
def c1_p0 : Provider :=
  { visible := true, bg := some Color.Blue,
    render := fun nb => (format_for_module "x"
      { ({} : ModuleOptions) with style := { background := some Color.Blue } }
      nb Shell.Bash).getD "" }

/-- The second provider of the C1 witness: invisible. -/
def c1_p1 : Provider :=
  { visible := false, bg := none, render := fun _ => "" }

/-- The third provider of the C1 witness: visible with a green
background. -/
def c1_p2 : Provider :=
  { visible := true, bg := some Color.Green, render := fun _ => "p2" }

/-- C1 witness: the three-segment list visible/invisible/visible at
`i = 0`, the invisible provider leaving the state unchanged, and the
git provider under the empty configuration with no repository. -/
theorem invisible_segment_chain_witness :
    (received_bg [c1_p0, c1_p1, c1_p2] none 0 = c1_p2.bg ∧
     (chain_outputs [c1_p0, c1_p1, c1_p2] none).getD 0 none =
       some (c1_p0.render c1_p2.bg)) ∧
    nb_after [c1_p1, c1_p2] none = nb_after [c1_p2] none ∧
    format_git { cwd_ok := true, repo := none } [] none Shell.Bash = pok {} :=
  ⟨invisible_segment_chain.1 [c1_p0, c1_p1, c1_p2] [] none 0 c1_p0 c1_p1 c1_p2
     rfl rfl rfl rfl,
   invisible_segment_chain.2.1 c1_p1 [c1_p2] none rfl,
   invisible_segment_chain.2.2 { cwd_ok := true, repo := none } [] none Shell.Bash {}
     (by decide) rfl⟩

/-! ### C9 -/

/-- Every index in the channel messages of a batch started at `k` is at
least `k`. -/
theorem successes_index_ge (outs : List (Option String)) (k : Nat) :
    ∀ a ∈ successes k outs, k ≤ a.1 := by
  induction outs generalizing k with
  | nil => intro a ha; cases ha
  | cons o rest ih =>
    intro a ha
    cases o with
    | some s =>
      rcases List.mem_cons.mp ha with rfl | ha
      · exact le_refl k
      · exact Nat.le_of_succ_le (ih (k + 1) a ha)
    | none => exact Nat.le_of_succ_le (ih (k + 1) a ha)

/-- The channel messages carry strictly increasing original indices. -/
theorem successes_pairwise (outs : List (Option String)) (k : Nat) :
    (successes k outs).Pairwise (fun a b => a.1 < b.1) := by
  induction outs generalizing k with
  | nil => exact List.Pairwise.nil
  | cons o rest ih =>
    cases o with
    | some s =>
      refine List.Pairwise.cons ?_ (ih (k + 1))
      intro b hb
      exact Nat.lt_of_lt_of_le (Nat.lt_succ_self k) (successes_index_ge rest (k + 1) b hb)
    | none => exact ih (k + 1)

/-- The channel messages are already sorted by the batch order. -/
theorem successes_sorted (outs : List (Option String)) (k : Nat) :
    List.Sorted result_le (successes k outs) :=
  (successes_pairwise outs k).imp (fun h => Or.inl h)

/-- C9: whatever order the worker results arrive in on the channel,
`main` prints the successful outputs in original call order.  (A
failing command's worker panics before sending, so — against the claim
— the batch is not aborted: the surviving outputs are still printed.) -/
theorem batch_order_preserved :
    ∀ (outcomes : List (Option String)) (received : List (Nat × String)),
      received.Perm (successes 0 outcomes) →
      main_output received = String.join ((successes 0 outcomes).map Prod.snd) := by
  intro outcomes received hperm
  unfold main_output
  have hsorted := List.sorted_insertionSort result_le received
  have hperm2 : (received.insertionSort result_le).Perm (successes 0 outcomes) :=
    (List.perm_insertionSort result_le received).trans hperm
  rw [List.eq_of_perm_of_sorted hperm2 hsorted (successes_sorted outcomes 0)]

/-- C9 witness: two successes arriving out of order around one failed
command are printed back in call order. -/
theorem batch_order_preserved_witness :
    main_output [(2, "c"), (0, "a")] =
      String.join ((successes 0 [some "a", none, some "c"]).map Prod.snd) :=
  batch_order_preserved [some "a", none, some "c"] [(2, "c"), (0, "a")] (by decide)

/-- C9 counterexample: with command 1 failing, its worker sends
nothing, yet the batch still prints the partial output `"ac"` of the
surviving commands — one failing command is not fatal to the whole
batch. -/
theorem failing_command_partial_output :
    successes 0 [some "a", none, some "c"] = [(0, "a"), (2, "c")] ∧
    main_output [(2, "c"), (0, "a")] = "ac" ∧
    "ac" ≠ "" := by
  refine ⟨by decide, ?_, by decide⟩
  show String.join (([(2, "c"), (0, "a")].insertionSort result_le).map Prod.snd) = "ac"
  have h : [(2, "c"), (0, "a")].insertionSort result_le = [(0, "a"), (2, "c")] := by
    simp [List.insertionSort, List.orderedInsert, result_le]
  rw [h]
  decide

end Contrail
